import Mathlib

/-!
Verification of the route-manager core of `src/main.py` (Slate Integrations
IP Route Manager) against its natural-language specification.

The Python functions relevant to the claims are shallowly embedded below as
executable Lean functions over `List Char` / `String`:

* `validate_ipv4`       — `main.py` lines 66–74
* `validate_subnet_mask`— `main.py` lines 77–84
* `log_command`         — `main.py` lines 87–97 (the appended block, as a record)
* `parse_route_print`   — `main.py` lines 1878–1914
* `get_persistent_routes` parsing — `main.py` lines 1916–1942
* `refresh_routes`      — `main.py` lines 1844–1876
* `do_add`              — `main.py` lines 1538–1583 (`show_add_route_dialog.do_add`)

Modelling conventions: external process invocations are modelled by their
observable results (exit code, stdout, stderr), with `none` / `.error`
standing for a raised exception (spawn failure or timeout).  Character
classes are restricted to ASCII on both the code side and the spec side
(Python's `\d` and `str.strip` also accept some non-ASCII characters; the
restriction is applied uniformly so no claim hinges on it).
-/

/-- ASCII whitespace as stripped by Python's `str.strip()`. -/
def isPySpace (c : Char) : Bool :=
  c = ' ' || c = '\t' || c = '\n' || c = '\x0d' || c = '\x0b' || c = '\x0c'

/-- ASCII decimal digit, the embedding of the regex class `\d`. -/
def isDigitChar (c : Char) : Bool :=
  '0' ≤ c && c ≤ '9'

/-- Remove leading and trailing whitespace from a character list
(Python `str.strip()`). -/
def stripChars (l : List Char) : List Char :=
  ((l.dropWhile isPySpace).reverse.dropWhile isPySpace).reverse

/-- Python `str.strip()` on a `String`. -/
def pyStrip (s : String) : String :=
  ⟨stripChars s.data⟩

/-- Split a character list at every occurrence of `sep`, keeping empty
segments (Python `str.split(sep)` for a one-character separator). -/
def splitChar (sep : Char) : List Char → List (List Char)
  | [] => [[]]
  | c :: t =>
    if c = sep then [] :: splitChar sep t
    else
      match splitChar sep t with
      | [] => [[c]]
      | g :: gs => (c :: g) :: gs

/-- Python no-argument `str.split()`: split on runs of whitespace,
discarding empty tokens. -/
def splitWsAux : List Char → List Char → List (List Char)
  | [], acc => if acc = [] then [] else [acc.reverse]
  | c :: t, acc =>
    if isPySpace c then
      if acc = [] then splitWsAux t [] else acc.reverse :: splitWsAux t []
    else splitWsAux t (c :: acc)

/-- Python no-argument `str.split()` on a character list. -/
def pySplitWs (l : List Char) : List (List Char) :=
  splitWsAux l []

/-- `leadsWith pat l` is true when `pat` occurs at the start of `l`. -/
def leadsWith : List Char → List Char → Bool
  | [], _ => true
  | _ :: _, [] => false
  | p :: ps, c :: cs => p = c && leadsWith ps cs

/-- `containsSub pat l` is true when `pat` occurs contiguously anywhere in
`l` (Python `pat in line`). -/
def containsSub (pat : List Char) : List Char → Bool
  | [] => leadsWith pat []
  | c :: cs => leadsWith pat (c :: cs) || containsSub pat cs

/-- Characters before the first occurrence of `pat` (the whole list when
`pat` does not occur): Python `s.split(pat)[0]` for non-empty `pat`. -/
def beforeSub (pat : List Char) : List Char → List Char
  | [] => []
  | c :: cs => if leadsWith pat (c :: cs) then [] else c :: beforeSub pat cs

/-- Numeric value of a digit string (Python `int` on an all-digit string). -/
def digitsToNat (g : List Char) : Nat :=
  g.foldl (fun n c => n * 10 + (c.toNat - '0'.toNat)) 0

/-- Python `' '.join`. -/
def joinSpace : List String → String
  | [] => ""
  | [s] => s
  | s :: t => s ++ " " ++ joinSpace t

/-- The 8-bit binary expansion of an octet, most significant bit first
(Python `format(o, '08b')` for `o ≤ 255`, which is guaranteed at the call
site by `validate_ipv4`). -/
def toBits8 (n : Nat) : List Bool :=
  [n.testBit 7, n.testBit 6, n.testBit 5, n.testBit 4,
   n.testBit 3, n.testBit 2, n.testBit 1, n.testBit 0]

/-- Scan for an adjacent `0` bit followed by a `1` bit: the embedding of
Python's `'01' in binary` substring test on the bit string. -/
def has01 : List Bool → Bool
  | [] => false
  | [_] => false
  | a :: b :: t => (!a && b) || has01 (b :: t)

/-- A capture group of the regex `(\d{1,3})` together with the numeric
bound checked afterwards by `validate_ipv4`: 1–3 digits, value ≤ 255. -/
def groupOkB (g : List Char) : Bool :=
  decide (1 ≤ g.length) && decide (g.length ≤ 3) &&
    g.all isDigitChar && decide (digitsToNat g ≤ 255)

/-- The anchored regex `^(\d{1,3})\.(\d{1,3})\.(\d{1,3})\.(\d{1,3})$`
combined with the per-octet `int(octet) > 255` rejection: since the groups
are dot-free, the regex matches exactly when splitting on `'.'` yields four
groups of 1–3 digits. -/
def quadCheck (cs : List Char) : Bool :=
  match splitChar '.' cs with
  | [g1, g2, g3, g4] => groupOkB g1 && groupOkB g2 && groupOkB g3 && groupOkB g4
  | _ => false

/-- `validate_ipv4` (`main.py` 66–74): strip the input, then require four
dot-separated groups of 1–3 digits, each numerically at most 255. -/
def validate_ipv4 (ip : String) : Bool :=
  quadCheck (stripChars ip.data)

/-- The octet values extracted by `validate_subnet_mask`
(`[int(x) for x in mask.strip().split('.')]`). -/
def maskOctets (mask : String) : List Nat :=
  (splitChar '.' (stripChars mask.data)).map digitsToNat

/-- The concatenated 8-bit-per-octet binary expansion built by
`validate_subnet_mask` (`''.join(format(o, '08b') for o in octets)`). -/
def maskBits (mask : String) : List Bool :=
  (maskOctets mask).flatMap toBits8

/-- `validate_subnet_mask` (`main.py` 77–84): valid IPv4 and no `"01"`
substring in the concatenated binary expansion. -/
def validate_subnet_mask (mask : String) : Bool :=
  if validate_ipv4 mask then !has01 (maskBits mask) else false

example : validate_ipv4 "255.255.255.0" = true := by decide
example : validate_ipv4 "256.1.1.1" = false := by decide
example : validate_ipv4 "1.2.3" = false := by decide
example : validate_ipv4 " 10.0.0.1 " = true := by decide
example : validate_subnet_mask "255.255.255.0" = true := by decide
example : validate_subnet_mask "255.0.255.0" = false := by decide

/-- The audit-log block written by `log_command` (`main.py` 87–97), as a
structured record: the `STDOUT:` / `STDERR:` sections are present exactly
when the corresponding stream is non-blank (`if stdout.strip():`). -/
structure LogRecord where
  timestamp : String
  command : String
  stdoutBlock : Option String
  stderrBlock : Option String
  success : Bool
deriving DecidableEq, Repr

/-- `log_command` (`main.py` 87–97). -/
def log_command (ts cmd out err : String) (success : Bool) : LogRecord :=
  { timestamp := ts, command := cmd,
    stdoutBlock := if pyStrip out = "" then none else some out,
    stderrBlock := if pyStrip err = "" then none else some err,
    success := success }

def activeMarker : List Char := "Active Routes:".data

def persistMarker : List Char := "Persistent Routes:".data

def headerMarker : List Char := "Network Destination".data

def eqeqMarker : List Char := "==".data

def noneMarker : List Char := "None".data

/-- A raw active-route row produced by `parse_route_print`. -/
structure RouteRaw where
  destination : String
  netmask : String
  gateway : String
  interface : String
  metric : String
deriving DecidableEq, Repr

/-- The line-scanning loop of `parse_route_print` (`main.py` 1883–1912),
with the `in_active_routes` flag as an explicit argument. -/
def parseActiveLoop : Bool → List (List Char) → List RouteRaw
  | _, [] => []
  | inActive, l :: rest =>
    if containsSub activeMarker l then parseActiveLoop true rest
    else if containsSub persistMarker l then []
    else if !inActive then parseActiveLoop inActive rest
    else if containsSub headerMarker l then parseActiveLoop inActive rest
    else if containsSub eqeqMarker l then parseActiveLoop inActive rest
    else
      let stripped := stripChars l
      if stripped = [] then parseActiveLoop inActive rest
      else
        match pySplitWs stripped with
        | p0 :: p1 :: p2 :: p3 :: p4 :: _ =>
          if validate_ipv4 ⟨p0⟩ || p0 = "0.0.0.0".data then
            { destination := ⟨p0⟩, netmask := ⟨p1⟩, gateway := ⟨p2⟩,
              interface := ⟨p3⟩, metric := ⟨p4⟩ } :: parseActiveLoop inActive rest
          else parseActiveLoop inActive rest
        | _ => parseActiveLoop inActive rest

/-- `parse_route_print` (`main.py` 1878–1914). -/
def parse_route_print (output : String) : List RouteRaw :=
  parseActiveLoop false (splitChar '\n' output.data)

/-- The line-scanning loop of `get_persistent_routes` (`main.py`
1925–1938), with the `in_persistent` flag as an explicit argument; the
`set` is modelled as the list of inserted destinations (only membership is
ever consumed). -/
def parsePersistentLoop : Bool → List (List Char) → List String
  | _, [] => []
  | inPers, l :: rest =>
    if containsSub persistMarker l then parsePersistentLoop true rest
    else if !inPers then parsePersistentLoop inPers rest
    else if containsSub eqeqMarker l then parsePersistentLoop inPers rest
    else if containsSub noneMarker l then []
    else
      match pySplitWs (stripChars l) with
      | [] => parsePersistentLoop inPers rest
      | p0 :: _ =>
        if validate_ipv4 ⟨p0⟩ || p0 = "0.0.0.0".data then
          ⟨p0⟩ :: parsePersistentLoop inPers rest
        else parsePersistentLoop inPers rest

/-- `get_persistent_routes` (`main.py` 1916–1942).  The external `route
print -4` invocation is modelled by its observable result: `none` for a
raised exception (spawn failure or timeout, swallowed by the bare
`except`), otherwise the exit code and stdout. -/
def get_persistent_routes (fetch : Option (Int × String)) : List String :=
  match fetch with
  | none => []
  | some (code, out) =>
    if code = 0 then parsePersistentLoop false (splitChar '\n' out.data) else []

/-- A snapshot row of `all_routes_data` as built by `refresh_routes`
(`main.py` 1864–1871). -/
structure RouteEntry where
  destination : String
  netmask : String
  gateway : String
  interface : String
  metric : String
  persistent : String
deriving DecidableEq, Repr

/-- The well-known system destinations excluded from the "No"
classification (`main.py` 1861). -/
def wellKnownDests : List String :=
  ["0.0.0.0", "127.0.0.0", "127.0.0.1", "224.0.0.0", "255.255.255.255"]

/-- The persistence classification of `refresh_routes` (`main.py`
1857–1862): start from `"Unknown"`, override with `"Yes"` on set
membership, else `"No"` unless the destination is well known. -/
def classify_persistence (pset : List String) (dest : String) : String :=
  if pset.contains dest then "Yes"
  else if !wellKnownDests.contains dest then "No"
  else "Unknown"

/-- One snapshot row built from a parsed row and the persistent set
(`main.py` 1864–1871). -/
def entryOfRaw (pset : List String) (r : RouteRaw) : RouteEntry :=
  { destination := r.destination, netmask := r.netmask, gateway := r.gateway,
    interface := r.interface, metric := r.metric,
    persistent := classify_persistence pset r.destination }

/-- `refresh_routes` (`main.py` 1844–1876).  `mainFetch` is the observable
result of the `route print -4` invocation at line 1846, `persFetch` the one
inside `get_persistent_routes`; `none` stands for a raised exception, which
the surrounding `try`/`except: pass` swallows.  On any failure the function
returns the previous snapshot `old`; the return type has no error channel,
matching the code, which surfaces nothing to snapshot readers. -/
def refresh_routes (mainFetch persFetch : Option (Int × String))
    (old : List RouteEntry) : List RouteEntry :=
  match mainFetch with
  | none => old
  | some (code, out) =>
    if code = 0 then
      (parse_route_print out).map (entryOfRaw (get_persistent_routes persFetch))
    else old

/-- The external commands spawned during one refresh cycle: the fetch in
`refresh_routes` (line 1846) and, when it exits zero, the second
`route print -4` inside `get_persistent_routes` (line 1919). -/
def refresh_cycle_commands (mainFetch : Option (Int × String)) : List String :=
  match mainFetch with
  | none => ["route print -4"]
  | some (code, _) =>
    if code = 0 then ["route print -4", "route print -4"] else ["route print -4"]

/-- The audit-log blocks appended during one refresh cycle: neither
`refresh_routes` (1844–1876) nor `get_persistent_routes` (1916–1942)
contains a `log_command` call, so the cycle appends nothing regardless of
the fetch outcomes. -/
def refresh_cycle_audit (_mainFetch _persFetch : Option (Int × String)) :
    List LogRecord := []

/-- A JSON-representable scalar, used for the `persistent` field of a
ledger record so that the string the code stores is distinguishable from
the boolean the spec describes. -/
inductive JVal where
  | jbool (b : Bool)
  | jstr (s : String)
deriving DecidableEq, Repr

/-- A ledger record as built by `do_add` (`main.py` 1570–1574). -/
structure AddedRouteRecord where
  destination : String
  mask : String
  gateway : String
  interface : String
  persistent : JVal
  timestamp : String
deriving DecidableEq, Repr

/-- The observable outcome of one `do_add` invocation: the ledger after the
call, whether `save_added_routes` ran, whether `refresh_routes` was
triggered, the audit blocks appended, and the error text shown (if any). -/
structure AddResult where
  ledger : List AddedRouteRecord
  ledgerSaved : Bool
  refreshTriggered : Bool
  audit : List LogRecord
  errorMsg : Option String
deriving DecidableEq, Repr

/-- The command line built by `do_add` (`main.py` 1559–1562). -/
def routeAddCmd (persistent : Bool) (dest mask gateway ifindex : String) :
    List String :=
  (if persistent then ["route", "-p", "add"] else ["route", "add"]) ++
    [dest, "mask", mask, gateway] ++
    (if ifindex = "" then [] else ["IF", ifindex])

/-- An aborted `do_add` (validation failure or declined confirmation):
ledger untouched, nothing saved, no refresh, no audit block. -/
def addAborted (ledger0 : List AddedRouteRecord) (msg : Option String) :
    AddResult :=
  { ledger := ledger0, ledgerSaved := false, refreshTriggered := false,
    audit := [], errorMsg := msg }

/-- The interface label stored in a ledger record (`main.py` 1569):
`interface_var.get().split(" (")[0] if interface_var.get() else "N/A"`. -/
def ifaceNameOf (display : String) : String :=
  if display = "" then "N/A" else String.mk (beforeSub " (".data display.data)

/-- `do_add` of `show_add_route_dialog` (`main.py` 1538–1583).  Entry-field
texts are stripped on read; `confirmOk` is the user's answer to the
persistent-route confirmation; `cmdResult` is the observable result of the
`subprocess.run` at line 1565 (`.error e` for a raised exception, with `e`
the exception text shown), `ifaceDisplay` the text of the interface
combobox, `ts` the timestamp taken from the clock. -/
def do_add (destRaw maskRaw gwRaw ifindex ifaceDisplay ts : String)
    (persistent confirmOk : Bool)
    (cmdResult : Except String (Int × String × String))
    (ledger0 : List AddedRouteRecord) : AddResult :=
  let dest := pyStrip destRaw
  let mask := pyStrip maskRaw
  let gateway := pyStrip gwRaw
  if dest = "" || !validate_ipv4 dest then
    addAborted ledger0 (some "Invalid destination IP")
  else if mask = "" || !validate_subnet_mask mask then
    addAborted ledger0 (some "Invalid subnet mask")
  else if gateway = "" || !validate_ipv4 gateway then
    addAborted ledger0 (some "Invalid gateway IP")
  else if persistent && !confirmOk then
    addAborted ledger0 none
  else
    let cmd := routeAddCmd persistent dest mask gateway ifindex
    match cmdResult with
    | .error e => addAborted ledger0 (some e)
    | .ok (code, out, err) =>
      let logged := log_command ts (joinSpace cmd) out err (code == 0)
      if code = 0 then
        { ledger := ledger0 ++
            [{ destination := dest, mask := mask, gateway := gateway,
               interface := ifaceNameOf ifaceDisplay,
               persistent := JVal.jstr (if persistent then "Yes" else "No"),
               timestamp := ts }],
          ledgerSaved := true, refreshTriggered := true,
          audit := [logged], errorMsg := none }
      else
        { ledger := ledger0, ledgerSaved := false, refreshTriggered := false,
          audit := [logged],
          errorMsg := some (if err ≠ "" then err
                            else if out ≠ "" then out
                            else "Failed to add route") }

example :
    parse_route_print
      "Active Routes:\nNetwork Destination Netmask Gateway Interface Metric\n 0.0.0.0 0.0.0.0 192.168.1.1 Ethernet0 25\nPersistent Routes:\n None" =
    [{ destination := "0.0.0.0", netmask := "0.0.0.0",
       gateway := "192.168.1.1", interface := "Ethernet0", metric := "25" }] := by
  decide

example :
    get_persistent_routes (some (0, "Persistent Routes:\n 0.0.0.0 0.0.0.0 192.168.1.1 1\n")) =
    ["0.0.0.0"] := by
  decide

/-- C1: every route entry placed in the snapshot by a refresh, classified
against the persistent-destination set fetched in the same cycle, has
persistence "Yes" iff its destination is in the set; a non-member
well-known destination gets "Unknown"; every other non-member gets "No".
Membership takes precedence over the well-known list. -/
theorem c1_refresh_persistence_classification
    (out : String) (persFetch : Option (Int × String)) (old : List RouteEntry)
    (e : RouteEntry) (he : e ∈ refresh_routes (some (0, out)) persFetch old) :
    (e.persistent = "Yes" ↔
      (get_persistent_routes persFetch).contains e.destination = true) ∧
    ((get_persistent_routes persFetch).contains e.destination = false →
      wellKnownDests.contains e.destination = true → e.persistent = "Unknown") ∧
    ((get_persistent_routes persFetch).contains e.destination = false →
      wellKnownDests.contains e.destination = false → e.persistent = "No") := by
  have hmem : e ∈ (parse_route_print out).map
      (entryOfRaw (get_persistent_routes persFetch)) := by
    simpa [refresh_routes] using he
  obtain ⟨r, -, rfl⟩ := List.mem_map.mp hmem
  have hd : (entryOfRaw (get_persistent_routes persFetch) r).destination =
      r.destination := rfl
  have hp : (entryOfRaw (get_persistent_routes persFetch) r).persistent =
      classify_persistence (get_persistent_routes persFetch) r.destination := rfl
  rw [hd, hp]
  unfold classify_persistence
  rcases hin : (get_persistent_routes persFetch).contains r.destination with _ | _ <;>
    rcases hwk : wellKnownDests.contains r.destination with _ | _ <;>
      simp only [hin, hwk, Bool.not_true, Bool.not_false, if_true, if_false,
        Bool.false_eq_true, Bool.true_eq_false, ite_true, ite_false] <;>
      simp

/-- Witness for C1 at a concrete refresh: the default route `0.0.0.0` is
listed in the persistent section, so it is classified "Yes" even though it
is on the well-known list. -/
theorem c1_refresh_persistence_classification_witness :
    (("Yes" : String) = "Yes" ↔
      (get_persistent_routes
        (some (0, "Persistent Routes:\n 0.0.0.0 0.0.0.0 192.168.1.1 1\n"))).contains
        "0.0.0.0" = true) ∧
    ((get_persistent_routes
        (some (0, "Persistent Routes:\n 0.0.0.0 0.0.0.0 192.168.1.1 1\n"))).contains
        "0.0.0.0" = false →
      wellKnownDests.contains "0.0.0.0" = true → ("Yes" : String) = "Unknown") ∧
    ((get_persistent_routes
        (some (0, "Persistent Routes:\n 0.0.0.0 0.0.0.0 192.168.1.1 1\n"))).contains
        "0.0.0.0" = false →
      wellKnownDests.contains "0.0.0.0" = false → ("Yes" : String) = "No") :=
  c1_refresh_persistence_classification
    "Active Routes:\n 0.0.0.0 0.0.0.0 192.168.1.1 Ethernet0 25\nPersistent Routes:\n"
    (some (0, "Persistent Routes:\n 0.0.0.0 0.0.0.0 192.168.1.1 1\n")) []
    { destination := "0.0.0.0", netmask := "0.0.0.0", gateway := "192.168.1.1",
      interface := "Ethernet0", metric := "25", persistent := "Yes" }
    (by decide)

/-- C2: when the route-table fetch of a refresh cycle fails — exception
(spawn error or timeout) or non-zero exit — the refresh returns the
previous snapshot completely unchanged, whatever the persistent-routes
fetch did; the return type carries no error, so no error reaches a
snapshot reader. -/
theorem c2_fetch_failure_retains_snapshot
    (persFetch : Option (Int × String)) (old : List RouteEntry) :
    refresh_routes none persFetch old = old ∧
    ∀ code out, code ≠ 0 →
      refresh_routes (some (code, out)) persFetch old = old := by
  refine ⟨rfl, fun code out h => ?_⟩
  simp [refresh_routes, h]

/-- Witness for C2: a timed-out fetch and an exit-code-1 fetch both leave a
concrete one-entry snapshot untouched. -/
theorem c2_fetch_failure_retains_snapshot_witness :
    refresh_routes none none
      [{ destination := "10.0.0.0", netmask := "255.0.0.0", gateway := "10.0.0.1",
         interface := "Ethernet0", metric := "5", persistent := "No" }] =
      [{ destination := "10.0.0.0", netmask := "255.0.0.0", gateway := "10.0.0.1",
         interface := "Ethernet0", metric := "5", persistent := "No" }] ∧
    refresh_routes (some (1, "Active Routes:\n")) none
      [{ destination := "10.0.0.0", netmask := "255.0.0.0", gateway := "10.0.0.1",
         interface := "Ethernet0", metric := "5", persistent := "No" }] =
      [{ destination := "10.0.0.0", netmask := "255.0.0.0", gateway := "10.0.0.1",
         interface := "Ethernet0", metric := "5", persistent := "No" }] :=
  ⟨(c2_fetch_failure_retains_snapshot none _).1,
   (c2_fetch_failure_retains_snapshot none _).2 1 "Active Routes:\n" (by decide)⟩

/-- Counterexample to C3: a refresh cycle whose fetch exited zero executed
the route-table print command (twice, once in `refresh_routes` and once in
`get_persistent_routes`) yet appended zero audit-log records, so it is
false that every execution of an external command — including the
route-table print command run by a refresh cycle — appends exactly one
record. -/
theorem c3_counterexample_refresh_cycle_unlogged :
    (refresh_cycle_commands (some (0, "Active Routes:\nPersistent Routes:\n"))).length = 2 ∧
    (refresh_cycle_audit (some (0, "Active Routes:\nPersistent Routes:\n"))
      (some (0, "Persistent Routes:\nNone"))).length = 0 :=
  ⟨rfl, rfl⟩

/-- C3 as amended: when the add mutation's command call returns a result
(exit code, stdout, stderr), exactly one record is appended to the audit
log, carrying the timestamp, the literal command line, the stdout/stderr
when non-blank, and a success flag set iff the exit code is zero; when the
call raises instead (timeout after spawning, or spawn failure — the
`except` at `main.py` 1582 runs before `log_command` at 1566 is reached)
no record is appended; and the route-table print commands run by a refresh
cycle append no record at all. -/
theorem c3_audit_one_record_per_mutation
    (destRaw maskRaw gwRaw ifindex ifaceDisplay ts : String)
    (persistent confirmOk : Bool) (code : Int) (out err : String)
    (ledger0 : List AddedRouteRecord)
    (hd : pyStrip destRaw ≠ "") (hdv : validate_ipv4 (pyStrip destRaw) = true)
    (hm : pyStrip maskRaw ≠ "") (hmv : validate_subnet_mask (pyStrip maskRaw) = true)
    (hg : pyStrip gwRaw ≠ "") (hgv : validate_ipv4 (pyStrip gwRaw) = true)
    (hc : confirmOk = true) :
    (do_add destRaw maskRaw gwRaw ifindex ifaceDisplay ts persistent confirmOk
        (.ok (code, out, err)) ledger0).audit =
      [log_command ts
        (joinSpace (routeAddCmd persistent (pyStrip destRaw) (pyStrip maskRaw)
          (pyStrip gwRaw) ifindex)) out err (code == 0)] ∧
    ((log_command ts
        (joinSpace (routeAddCmd persistent (pyStrip destRaw) (pyStrip maskRaw)
          (pyStrip gwRaw) ifindex)) out err (code == 0)).success = true ↔ code = 0) ∧
    (log_command ts
        (joinSpace (routeAddCmd persistent (pyStrip destRaw) (pyStrip maskRaw)
          (pyStrip gwRaw) ifindex)) out err (code == 0)).timestamp = ts ∧
    (log_command ts
        (joinSpace (routeAddCmd persistent (pyStrip destRaw) (pyStrip maskRaw)
          (pyStrip gwRaw) ifindex)) out err (code == 0)).command =
      joinSpace (routeAddCmd persistent (pyStrip destRaw) (pyStrip maskRaw)
        (pyStrip gwRaw) ifindex) ∧
    (pyStrip out ≠ "" →
      (log_command ts
        (joinSpace (routeAddCmd persistent (pyStrip destRaw) (pyStrip maskRaw)
          (pyStrip gwRaw) ifindex)) out err (code == 0)).stdoutBlock = some out) ∧
    (pyStrip err ≠ "" →
      (log_command ts
        (joinSpace (routeAddCmd persistent (pyStrip destRaw) (pyStrip maskRaw)
          (pyStrip gwRaw) ifindex)) out err (code == 0)).stderrBlock = some err) ∧
    (∀ e, (do_add destRaw maskRaw gwRaw ifindex ifaceDisplay ts persistent
        confirmOk (.error e) ledger0).audit = []) ∧
    (∀ mf pf, refresh_cycle_audit mf pf = []) := by
  subst hc
  refine ⟨?_, by simp [log_command], by simp [log_command],
    by simp [log_command], fun h => by simp [log_command, h],
    fun h => by simp [log_command, h],
    fun e => by simp [do_add, hd, hdv, hm, hmv, hg, hgv, addAborted],
    fun _ _ => rfl⟩
  by_cases hcode : code = 0 <;>
    simp [do_add, hd, hdv, hm, hmv, hg, hgv, hcode]

/-- Witness for C3 (amended) at a concrete failing `route add`: one record,
FAILED flag, stderr block present. -/
theorem c3_audit_one_record_per_mutation_witness :
    (do_add "10.0.0.0" "255.255.255.0" "10.0.0.1" "" "Ethernet0"
        "2024-01-01 00:00:00" false true
        (.ok (1, "", "The route addition failed")) []).audit =
      [log_command "2024-01-01 00:00:00"
        (joinSpace (routeAddCmd false (pyStrip "10.0.0.0") (pyStrip "255.255.255.0")
          (pyStrip "10.0.0.1") "")) "" "The route addition failed" ((1 : Int) == 0)] ∧
    ((log_command "2024-01-01 00:00:00"
        (joinSpace (routeAddCmd false (pyStrip "10.0.0.0") (pyStrip "255.255.255.0")
          (pyStrip "10.0.0.1") "")) "" "The route addition failed"
        ((1 : Int) == 0)).success = true ↔ (1 : Int) = 0) ∧
    (log_command "2024-01-01 00:00:00"
        (joinSpace (routeAddCmd false (pyStrip "10.0.0.0") (pyStrip "255.255.255.0")
          (pyStrip "10.0.0.1") "")) "" "The route addition failed"
        ((1 : Int) == 0)).timestamp = "2024-01-01 00:00:00" ∧
    (log_command "2024-01-01 00:00:00"
        (joinSpace (routeAddCmd false (pyStrip "10.0.0.0") (pyStrip "255.255.255.0")
          (pyStrip "10.0.0.1") "")) "" "The route addition failed"
        ((1 : Int) == 0)).command =
      joinSpace (routeAddCmd false (pyStrip "10.0.0.0") (pyStrip "255.255.255.0")
        (pyStrip "10.0.0.1") "") ∧
    (pyStrip "" ≠ "" →
      (log_command "2024-01-01 00:00:00"
        (joinSpace (routeAddCmd false (pyStrip "10.0.0.0") (pyStrip "255.255.255.0")
          (pyStrip "10.0.0.1") "")) "" "The route addition failed"
        ((1 : Int) == 0)).stdoutBlock = some "") ∧
    (pyStrip "The route addition failed" ≠ "" →
      (log_command "2024-01-01 00:00:00"
        (joinSpace (routeAddCmd false (pyStrip "10.0.0.0") (pyStrip "255.255.255.0")
          (pyStrip "10.0.0.1") "")) "" "The route addition failed"
        ((1 : Int) == 0)).stderrBlock = some "The route addition failed") ∧
    (∀ e, (do_add "10.0.0.0" "255.255.255.0" "10.0.0.1" "" "Ethernet0"
        "2024-01-01 00:00:00" false true (.error e) []).audit = []) ∧
    (∀ mf pf, refresh_cycle_audit mf pf = []) :=
  c3_audit_one_record_per_mutation "10.0.0.0" "255.255.255.0" "10.0.0.1" ""
    "Ethernet0" "2024-01-01 00:00:00" false true 1 "" "The route addition failed" []
    (by decide) (by decide) (by decide) (by decide) (by decide) (by decide) rfl

/-- Counterexample to C4: on a non-zero exit with empty stderr the claim
requires the command's stdout to be surfaced as the failure detail, but
when the stdout is empty too the code surfaces the generic text
"Failed to add route" instead of the (empty) stdout. -/
theorem c4_counterexample_generic_fallback :
    (do_add "10.0.0.0" "255.255.255.0" "10.0.0.1" "" "Ethernet0"
        "2024-01-01 00:00:00" false true (.ok (1, "", "")) []).errorMsg =
      some "Failed to add route" ∧
    (do_add "10.0.0.0" "255.255.255.0" "10.0.0.1" "" "Ethernet0"
        "2024-01-01 00:00:00" false true (.ok (1, "", "")) []).errorMsg ≠
      some "" := by
  decide

/-- C4 as amended: after validation and confirmation pass, a zero exit
appends exactly one ledger record carrying the given destination, mask,
gateway, interface label and timestamp, persists the ledger immediately and
triggers a refresh; a non-zero exit leaves the ledger unwritten and
surfaces the stderr, else the stdout when stderr is empty, else the generic
"Failed to add route" message when both are empty; and a raised exception
(timeout after spawning, or spawn failure) also aborts the operation with
the exception text, leaving the ledger unwritten and triggering no
refresh. -/
theorem c4_add_route_outcome
    (destRaw maskRaw gwRaw ifindex ifaceDisplay ts : String)
    (persistent confirmOk : Bool) (ledger0 : List AddedRouteRecord)
    (hd : pyStrip destRaw ≠ "") (hdv : validate_ipv4 (pyStrip destRaw) = true)
    (hm : pyStrip maskRaw ≠ "") (hmv : validate_subnet_mask (pyStrip maskRaw) = true)
    (hg : pyStrip gwRaw ≠ "") (hgv : validate_ipv4 (pyStrip gwRaw) = true)
    (hc : confirmOk = true) :
    (∀ out err,
      (do_add destRaw maskRaw gwRaw ifindex ifaceDisplay ts persistent confirmOk
          (.ok (0, out, err)) ledger0).ledger =
        ledger0 ++
          [{ destination := pyStrip destRaw, mask := pyStrip maskRaw,
             gateway := pyStrip gwRaw, interface := ifaceNameOf ifaceDisplay,
             persistent := JVal.jstr (if persistent then "Yes" else "No"),
             timestamp := ts }] ∧
      (do_add destRaw maskRaw gwRaw ifindex ifaceDisplay ts persistent confirmOk
          (.ok (0, out, err)) ledger0).ledgerSaved = true ∧
      (do_add destRaw maskRaw gwRaw ifindex ifaceDisplay ts persistent confirmOk
          (.ok (0, out, err)) ledger0).refreshTriggered = true) ∧
    (∀ code out err, code ≠ 0 →
      (do_add destRaw maskRaw gwRaw ifindex ifaceDisplay ts persistent confirmOk
          (.ok (code, out, err)) ledger0).ledger = ledger0 ∧
      (do_add destRaw maskRaw gwRaw ifindex ifaceDisplay ts persistent confirmOk
          (.ok (code, out, err)) ledger0).ledgerSaved = false ∧
      (do_add destRaw maskRaw gwRaw ifindex ifaceDisplay ts persistent confirmOk
          (.ok (code, out, err)) ledger0).refreshTriggered = false ∧
      (err ≠ "" →
        (do_add destRaw maskRaw gwRaw ifindex ifaceDisplay ts persistent confirmOk
            (.ok (code, out, err)) ledger0).errorMsg = some err) ∧
      (err = "" → out ≠ "" →
        (do_add destRaw maskRaw gwRaw ifindex ifaceDisplay ts persistent confirmOk
            (.ok (code, out, err)) ledger0).errorMsg = some out) ∧
      (err = "" → out = "" →
        (do_add destRaw maskRaw gwRaw ifindex ifaceDisplay ts persistent confirmOk
            (.ok (code, out, err)) ledger0).errorMsg =
          some "Failed to add route")) ∧
    (∀ e,
      (do_add destRaw maskRaw gwRaw ifindex ifaceDisplay ts persistent confirmOk
          (.error e) ledger0).ledger = ledger0 ∧
      (do_add destRaw maskRaw gwRaw ifindex ifaceDisplay ts persistent confirmOk
          (.error e) ledger0).ledgerSaved = false ∧
      (do_add destRaw maskRaw gwRaw ifindex ifaceDisplay ts persistent confirmOk
          (.error e) ledger0).refreshTriggered = false ∧
      (do_add destRaw maskRaw gwRaw ifindex ifaceDisplay ts persistent confirmOk
          (.error e) ledger0).errorMsg = some e) := by
  subst hc
  refine ⟨fun out err => ?_, fun code out err hcode => ?_, fun e => ?_⟩
  · simp [do_add, hd, hdv, hm, hmv, hg, hgv]
  · by_cases he : err = "" <;> by_cases ho : out = "" <;>
      simp [do_add, hd, hdv, hm, hmv, hg, hgv, hcode, he, ho]
  · simp [do_add, hd, hdv, hm, hmv, hg, hgv, addAborted]

/-- Witness for C4 (amended): a concrete successful add appends its record,
a concrete failing add surfaces the stderr text, and a timed-out add leaves
the ledger untouched. -/
theorem c4_add_route_outcome_witness :
    (do_add "10.0.0.0" "255.255.255.0" "10.0.0.1" "" "Ethernet0 (10.0.0.1)"
        "2024-01-01 00:00:00" false true (.ok (0, "OK!", "")) []).ledger =
      [{ destination := pyStrip "10.0.0.0", mask := pyStrip "255.255.255.0",
         gateway := pyStrip "10.0.0.1", interface := ifaceNameOf "Ethernet0 (10.0.0.1)",
         persistent := JVal.jstr "No", timestamp := "2024-01-01 00:00:00" }] ∧
    (do_add "10.0.0.0" "255.255.255.0" "10.0.0.1" "" "Ethernet0 (10.0.0.1)"
        "2024-01-01 00:00:00" false true (.ok (2, "", "Access denied")) []).errorMsg =
      some "Access denied" ∧
    (do_add "10.0.0.0" "255.255.255.0" "10.0.0.1" "" "Ethernet0 (10.0.0.1)"
        "2024-01-01 00:00:00" false true
        (.error "Command timed out after 30 seconds") []).ledger = [] := by
  have h := c4_add_route_outcome "10.0.0.0" "255.255.255.0" "10.0.0.1" ""
    "Ethernet0 (10.0.0.1)" "2024-01-01 00:00:00" false true []
    (by decide) (by decide) (by decide) (by decide) (by decide) (by decide) rfl
  exact ⟨(h.1 "OK!" "").1, (h.2.1 2 "" "Access denied" (by decide)).2.2.2.1 (by decide),
    (h.2.2 "Command timed out after 30 seconds").1⟩

/-- Counterexample to C6: the `persistent` field of the record appended by
a successful non-persistent add is the string "No", not the boolean
`false` the claim describes. -/
theorem c6_counterexample_persistent_is_string :
    ((do_add "10.0.0.0" "255.255.255.0" "10.0.0.1" "" "Ethernet0"
        "2024-01-01 00:00:00" false true (.ok (0, "OK!", "")) []).ledger.map
        AddedRouteRecord.persistent) = [JVal.jstr "No"] ∧
    JVal.jstr "No" ≠ JVal.jbool false := by
  decide

/-- C6 as amended: a successful add appends exactly one record whose
`persistent` field is the string "No" for a non-persistent add and the
string "Yes" for a persistent (confirmed) add. -/
theorem c6_persistent_field_is_yes_no_string
    (destRaw maskRaw gwRaw ifindex ifaceDisplay ts : String)
    (persistent confirmOk : Bool) (out err : String)
    (ledger0 : List AddedRouteRecord)
    (hd : pyStrip destRaw ≠ "") (hdv : validate_ipv4 (pyStrip destRaw) = true)
    (hm : pyStrip maskRaw ≠ "") (hmv : validate_subnet_mask (pyStrip maskRaw) = true)
    (hg : pyStrip gwRaw ≠ "") (hgv : validate_ipv4 (pyStrip gwRaw) = true)
    (hc : confirmOk = true) :
    ((do_add destRaw maskRaw gwRaw ifindex ifaceDisplay ts persistent confirmOk
        (.ok (0, out, err)) ledger0).ledger.map AddedRouteRecord.persistent) =
      ledger0.map AddedRouteRecord.persistent ++
        [JVal.jstr (if persistent then "Yes" else "No")] := by
  subst hc
  simp [do_add, hd, hdv, hm, hmv, hg, hgv]

/-- Witness for C6 (amended): a concrete persistent add stores the string
"Yes". -/
theorem c6_persistent_field_is_yes_no_string_witness :
    ((do_add "10.0.0.0" "255.255.255.0" "10.0.0.1" "" "Ethernet0"
        "2024-01-01 00:00:00" true true (.ok (0, "", "")) []).ledger.map
        AddedRouteRecord.persistent) = [JVal.jstr "Yes"] :=
  c6_persistent_field_is_yes_no_string "10.0.0.0" "255.255.255.0" "10.0.0.1" ""
    "Ethernet0" "2024-01-01 00:00:00" true true "" "" []
    (by decide) (by decide) (by decide) (by decide) (by decide) (by decide) rfl

/-- `l` has no leading element satisfying `p`. -/
def noLead (p : Char → Bool) (l : List Char) : Prop :=
  ∀ x, l.head? = some x → p x = false

theorem noLead_dropWhile (p : Char → Bool) (l : List Char) :
    noLead p (l.dropWhile p) := by
  intro x hx
  have h := List.head?_dropWhile_not p l
  rw [hx] at h
  exact h

theorem dropWhile_eq_self_of_noLead {p : Char → Bool} {l : List Char}
    (h : noLead p l) : l.dropWhile p = l := by
  cases l with
  | nil => rfl
  | cons a t => exact List.dropWhile_cons_of_neg (by simp [h a rfl])

theorem noLead_trimEnd {p : Char → Bool} {m : List Char} (h : noLead p m) :
    noLead p ((m.reverse.dropWhile p).reverse) := by
  cases m with
  | nil => intro x hx; simp at hx
  | cons a t =>
    have hpa : p a = false := h a rfl
    rw [List.reverse_cons, List.dropWhile_append]
    by_cases he : (t.reverse.dropWhile p).isEmpty = true
    · rw [if_pos he, List.dropWhile_cons_of_neg (by simp [hpa])]
      intro x hx
      simp only [List.dropWhile_nil, List.reverse_cons, List.reverse_nil,
        List.nil_append, List.head?_cons, Option.some.injEq] at hx
      exact hx ▸ hpa
    · rw [if_neg he, List.reverse_append]
      intro x hx
      simp only [List.reverse_cons, List.reverse_nil, List.nil_append,
        List.singleton_append, List.head?_cons, Option.some.injEq] at hx
      exact hx ▸ hpa

/-- Python `strip()` is idempotent. -/
theorem stripChars_idem (l : List Char) :
    stripChars (stripChars l) = stripChars l := by
  unfold stripChars
  have hna : noLead isPySpace (l.dropWhile isPySpace) := noLead_dropWhile _ _
  have hnb : noLead isPySpace
      (((l.dropWhile isPySpace).reverse.dropWhile isPySpace).reverse) :=
    noLead_trimEnd hna
  rw [dropWhile_eq_self_of_noLead hnb, List.reverse_reverse,
    dropWhile_eq_self_of_noLead (noLead_dropWhile _ _)]

/-- C10: both validators strip their input before checking, so validating
any string gives the same verdict as validating its stripped form; in
particular `" 10.0.0.1 "` is accepted. -/
theorem c10_validators_strip_invariant :
    (∀ s, validate_ipv4 s = validate_ipv4 (pyStrip s)) ∧
    (∀ s, validate_subnet_mask s = validate_subnet_mask (pyStrip s)) ∧
    validate_ipv4 " 10.0.0.1 " = true := by
  have hip : ∀ s, validate_ipv4 s = validate_ipv4 (pyStrip s) := by
    intro s
    show quadCheck (stripChars s.data) = quadCheck (stripChars (pyStrip s).data)
    rw [show (pyStrip s).data = stripChars s.data from rfl, stripChars_idem]
  refine ⟨hip, fun s => ?_, by decide⟩
  have hmb : maskBits (pyStrip s) = maskBits s := by
    unfold maskBits maskOctets
    rw [show (pyStrip s).data = stripChars s.data from rfl, stripChars_idem]
  unfold validate_subnet_mask
  rw [← hip s, hmb]

/-- The claim's reading of the mask condition: some `0` bit is followed
(anywhere later, not necessarily adjacently) by a `1` bit. -/
def Later01 (l : List Bool) : Prop :=
  ∃ i j : Nat, i < j ∧ l[i]? = some false ∧ l[j]? = some true

theorem has01_cons {l : List Bool} (a : Bool) (h : has01 l = true) :
    has01 (a :: l) = true := by
  cases l with
  | nil => simp [has01] at h
  | cons b t => simp [has01, h]

theorem later01_of_has01 : ∀ {l : List Bool}, has01 l = true → Later01 l := by
  intro l
  induction l with
  | nil => intro h; simp [has01] at h
  | cons a t ih =>
    intro h
    cases t with
    | nil => simp [has01] at h
    | cons b t' =>
      have h' : a = false ∧ b = true ∨ has01 (b :: t') = true := by
        simpa [has01] using h
      rcases h' with ⟨ha, hb⟩ | h2
      · exact ⟨0, 1, Nat.zero_lt_one, by simp [ha], by simp [hb]⟩
      · obtain ⟨i, j, hij, hi, hj⟩ := ih h2
        exact ⟨i + 1, j + 1, Nat.succ_lt_succ hij, by simpa, by simpa⟩

theorem has01_of_later01 : ∀ {l : List Bool}, Later01 l → has01 l = true := by
  intro l
  induction l with
  | nil => rintro ⟨i, j, hij, hi, hj⟩; simp at hi
  | cons a t ih =>
    rintro ⟨i, j, hij, hi, hj⟩
    cases i with
    | zero =>
      rw [List.getElem?_cons_zero, Option.some.injEq] at hi
      obtain ⟨j', rfl⟩ : ∃ j', j = j' + 1 := ⟨j - 1, by omega⟩
      rw [List.getElem?_cons_succ] at hj
      cases t with
      | nil => simp at hj
      | cons b t' =>
        rcases Bool.eq_false_or_eq_true b with hb | hb
        · simp [has01, hi, hb]
        · cases j' with
          | zero => simp [hb] at hj
          | succ j'' =>
            exact has01_cons a (ih ⟨0, j'' + 1, by omega, by simp [hb], hj⟩)
    | succ i' =>
      obtain ⟨j', rfl⟩ : ∃ j', j = j' + 1 := ⟨j - 1, by omega⟩
      rw [List.getElem?_cons_succ] at hi hj
      exact has01_cons a (ih ⟨i', j', by omega, hi, hj⟩)

/-- C7: `validate_subnet_mask` accepts exactly the strings that pass
`validate_ipv4` and whose concatenated 8-bit-per-octet binary expansion has
no `0` bit followed later by a `1` bit (the adjacent-`"01"` substring scan
of the code is equivalent to the claim's "followed later" condition), and
the claim's two examples behave as stated. -/
theorem c7_subnet_mask_contiguous :
    (∀ s, validate_subnet_mask s = true ↔
      validate_ipv4 s = true ∧ ¬ Later01 (maskBits s)) ∧
    validate_subnet_mask "255.255.255.0" = true ∧
    validate_subnet_mask "255.0.255.0" = false := by
  refine ⟨fun s => ?_, by decide, by decide⟩
  unfold validate_subnet_mask
  by_cases hv : validate_ipv4 s = true
  · rw [if_pos hv]
    constructor
    · intro h
      refine ⟨hv, fun hl => ?_⟩
      rw [has01_of_later01 hl] at h
      exact absurd h (by simp)
    · rintro ⟨-, hl⟩
      rcases hh : has01 (maskBits s) with _ | _
      · simp
      · exact absurd (later01_of_has01 hh) hl
  · rw [if_neg hv]
    simp [hv]

/-- Witness for C7 at the claim's positive example: `"255.255.255.0"` is a
valid IPv4 string whose bit expansion has no `0` bit later followed by a
`1` bit. -/
theorem c7_subnet_mask_contiguous_witness :
    validate_ipv4 "255.255.255.0" = true ∧
    ¬ Later01 (maskBits "255.255.255.0") :=
  (c7_subnet_mask_contiguous.1 "255.255.255.0").mp (by decide)

theorem splitChar_ne_nil (sep : Char) : ∀ cs, splitChar sep cs ≠ [] := by
  intro cs
  induction cs with
  | nil => simp [splitChar]
  | cons c t ih =>
    by_cases hc : c = sep
    · simp [splitChar, hc]
    · simp only [splitChar, if_neg hc]
      cases hx : splitChar sep t with
      | nil => exact absurd hx ih
      | cons a b => simp

theorem splitChar_cons_sep (sep : Char) (t : List Char) :
    splitChar sep (sep :: t) = [] :: splitChar sep t := by
  simp [splitChar]

theorem splitChar_cons_ne {sep c : Char} (t : List Char) (hc : c ≠ sep)
    {g : List Char} {gs : List (List Char)} (h : splitChar sep t = g :: gs) :
    splitChar sep (c :: t) = (c :: g) :: gs := by
  simp only [splitChar, if_neg hc, h]

/-- Inverting one step of `splitChar`: a first segment is either the whole
(separator-free) input or is followed by a separator and the rest. -/
theorem splitChar_inv {sep : Char} :
    ∀ {cs g gs}, splitChar sep cs = g :: gs →
      (gs = [] ∧ cs = g) ∨
      ∃ rest, cs = g ++ sep :: rest ∧ splitChar sep rest = gs ∧
        ∀ c ∈ g, c ≠ sep := by
  intro cs
  induction cs with
  | nil =>
    intro g gs h
    simp only [splitChar, List.cons.injEq] at h
    exact Or.inl ⟨h.2.symm, h.1⟩
  | cons c t ih =>
    intro g gs h
    by_cases hc : c = sep
    · subst hc
      rw [splitChar_cons_sep] at h
      obtain ⟨hg, hgs⟩ := List.cons.injEq .. |>.mp h.symm
      exact Or.inr ⟨t, by simp [hg], hgs.symm, by simp [hg]⟩
    · obtain ⟨g', gs', hsplit⟩ : ∃ g' gs', splitChar sep t = g' :: gs' := by
        cases hx : splitChar sep t with
        | nil => exact absurd hx (splitChar_ne_nil sep t)
        | cons a b => exact ⟨a, b, rfl⟩
      rw [splitChar_cons_ne t hc hsplit] at h
      obtain ⟨hg, hgs⟩ := List.cons.injEq .. |>.mp h
      rcases ih hsplit with ⟨hnil, hteq⟩ | ⟨rest, hteq, hrest, hnosep⟩
      · exact Or.inl ⟨hgs ▸ hnil, by rw [← hg, ← hteq]⟩
      · refine Or.inr ⟨rest, ?_, by rw [hrest, hgs], ?_⟩
        · rw [← hg, hteq]; simp
        · intro x hx
          rw [← hg] at hx
          rcases List.mem_cons.mp hx with rfl | hmem
          · exact hc
          · exact hnosep x hmem

theorem splitChar_no_sep {sep : Char} :
    ∀ {cs}, (∀ c ∈ cs, c ≠ sep) → splitChar sep cs = [cs] := by
  intro cs
  induction cs with
  | nil => intro _; rfl
  | cons c t ih =>
    intro h
    have hc : c ≠ sep := h c (List.mem_cons_self c t)
    have ht := ih fun x hx => h x (List.mem_cons_of_mem c hx)
    exact splitChar_cons_ne t hc ht

theorem splitChar_append {sep : Char} (g rest : List Char)
    (h : ∀ c ∈ g, c ≠ sep) :
    splitChar sep (g ++ sep :: rest) = g :: splitChar sep rest := by
  induction g with
  | nil => simpa using splitChar_cons_sep sep rest
  | cons c t ih =>
    have hc : c ≠ sep := h c (List.mem_cons_self c t)
    have ht := ih fun x hx => h x (List.mem_cons_of_mem c hx)
    obtain ⟨g', gs', hsplit⟩ : ∃ g' gs',
        splitChar sep (t ++ sep :: rest) = g' :: gs' := by
      cases hx : splitChar sep (t ++ sep :: rest) with
      | nil => exact absurd hx (splitChar_ne_nil sep _)
      | cons a b => exact ⟨a, b, rfl⟩
    rw [hsplit] at ht
    obtain ⟨h1, h2⟩ := List.cons.injEq .. |>.mp ht
    rw [List.cons_append, splitChar_cons_ne _ hc hsplit, h1, h2]

/-- Propositional form of `groupOkB`: a group of 1–3 digits with numeric
value at most 255, as the claim words it. -/
def groupOk (g : List Char) : Prop :=
  1 ≤ g.length ∧ g.length ≤ 3 ∧ (∀ c ∈ g, isDigitChar c = true) ∧
    digitsToNat g ≤ 255

theorem groupOkB_iff (g : List Char) : groupOkB g = true ↔ groupOk g := by
  simp [groupOkB, groupOk, List.all_eq_true, and_assoc]

theorem groupOk_no_dot {g : List Char} (h : groupOk g) : ∀ c ∈ g, c ≠ '.' := by
  intro c hc heq
  have hd := h.2.2.1 c hc
  rw [heq] at hd
  simp [isDigitChar] at hd

/-- The split-based check of `validate_ipv4` holds exactly when the
character list decomposes into four dot-separated digit groups. -/
theorem quadCheck_iff (cs : List Char) :
    quadCheck cs = true ↔
      ∃ g1 g2 g3 g4, cs = g1 ++ '.' :: (g2 ++ '.' :: (g3 ++ '.' :: g4)) ∧
        groupOk g1 ∧ groupOk g2 ∧ groupOk g3 ∧ groupOk g4 := by
  constructor
  · intro h
    unfold quadCheck at h
    split at h
    case h_1 g1 g2 g3 g4 heq =>
      obtain ⟨⟨⟨h1, h2⟩, h3⟩, h4⟩ := by simpa [Bool.and_eq_true] using h
      rcases splitChar_inv heq with ⟨hnil, -⟩ | ⟨r1, hcs1, hr1, hd1⟩
      · exact absurd hnil (by simp)
      rcases splitChar_inv hr1 with ⟨hnil, -⟩ | ⟨r2, hcs2, hr2, hd2⟩
      · exact absurd hnil (by simp)
      rcases splitChar_inv hr2 with ⟨hnil, -⟩ | ⟨r3, hcs3, hr3, hd3⟩
      · exact absurd hnil (by simp)
      rcases splitChar_inv hr3 with ⟨-, hg4⟩ | ⟨r4, -, hr4, -⟩
      · refine ⟨g1, g2, g3, g4, ?_, (groupOkB_iff g1).mp h1,
          (groupOkB_iff g2).mp h2, (groupOkB_iff g3).mp h3,
          (groupOkB_iff g4).mp h4⟩
        rw [hcs1, hcs2, hcs3, hg4]
      · exact absurd hr4 (by simp [splitChar_ne_nil])
    case h_2 => exact absurd h (by simp)
  · rintro ⟨g1, g2, g3, g4, rfl, h1, h2, h3, h4⟩
    unfold quadCheck
    rw [splitChar_append g1 _ (groupOk_no_dot h1),
      splitChar_append g2 _ (groupOk_no_dot h2),
      splitChar_append g3 _ (groupOk_no_dot h3),
      splitChar_no_sep (groupOk_no_dot h4)]
    simp only [Bool.and_eq_true]
    exact ⟨⟨⟨(groupOkB_iff g1).mpr h1, (groupOkB_iff g2).mpr h2⟩,
      (groupOkB_iff g3).mpr h3⟩, (groupOkB_iff g4).mpr h4⟩

/-- Modelled from the claim's words, with no stripping: `s` consists of
four dot-separated groups of 1–3 digits, each numerically at most 255. -/
def claimDottedQuad (s : String) : Prop :=
  ∃ g1 g2 g3 g4 : List Char,
    s.data = g1 ++ '.' :: (g2 ++ '.' :: (g3 ++ '.' :: g4)) ∧
    groupOk g1 ∧ groupOk g2 ∧ groupOk g3 ∧ groupOk g4

/-- Counterexample to C8: `" 1.2.3.4"` is accepted by `validate_ipv4` (the
code strips first) although it does not consist of four dot-separated digit
groups, so acceptance is not equivalent to the claim's shape condition on
the string itself. -/
theorem c8_counterexample_whitespace_accepted :
    validate_ipv4 " 1.2.3.4" = true ∧ ¬ claimDottedQuad " 1.2.3.4" := by
  refine ⟨by decide, fun hq => ?_⟩
  have hquad : quadCheck " 1.2.3.4".data = true := (quadCheck_iff _).mpr hq
  exact absurd hquad (by decide)

/-- C8 as amended: `validate_ipv4` accepts exactly the strings whose
whitespace-stripped form consists of four dot-separated groups of 1–3
digits each numerically at most 255, and the claim's three examples behave
as stated. -/
theorem c8_ipv4_dotted_quad_after_strip :
    (∀ s, validate_ipv4 s = true ↔ claimDottedQuad (pyStrip s)) ∧
    validate_ipv4 "255.255.255.0" = true ∧
    validate_ipv4 "256.1.1.1" = false ∧
    validate_ipv4 "1.2.3" = false := by
  refine ⟨fun s => ?_, by decide, by decide, by decide⟩
  exact quadCheck_iff (stripChars s.data)

/-- Witness for C8 (amended) at the claim's positive example. -/
theorem c8_ipv4_dotted_quad_after_strip_witness :
    claimDottedQuad (pyStrip "255.255.255.0") :=
  (c8_ipv4_dotted_quad_after_strip.1 "255.255.255.0").mp (by decide)

/-- Modelled from the claim's words: the lines strictly between the
"Active Routes:" marker line and the "Persistent Routes:" marker line. -/
def claimRegion : List (List Char) → List (List Char)
  | [] => []
  | l :: rest =>
    if containsSub activeMarker l then
      rest.takeWhile (fun x => !containsSub persistMarker x)
    else claimRegion rest

/-- Modelled from the claim's words: a line in the region yields an entry
when it is not the column-header line, not a line consisting only of `'='`
characters, not blank, splits into at least 5 whitespace-separated fields
and its first field validates as IPv4 or equals "0.0.0.0"; the fields map
positionally. -/
def claimLineEntry? (l : List Char) : Option RouteRaw :=
  if containsSub headerMarker l then none
  else if l ≠ [] && l.all (fun c => c = '=') then none
  else if stripChars l = [] then none
  else
    match pySplitWs (stripChars l) with
    | p0 :: p1 :: p2 :: p3 :: p4 :: _ =>
      if validate_ipv4 ⟨p0⟩ || p0 = "0.0.0.0".data then
        some { destination := ⟨p0⟩, netmask := ⟨p1⟩, gateway := ⟨p2⟩,
               interface := ⟨p3⟩, metric := ⟨p4⟩ }
      else none
    | _ => none

/-- The route-table parser exactly as the claim describes it (modelled from
the spec, for comparison with `parse_route_print`). -/
def specClaimParse (output : String) : List RouteRaw :=
  (claimRegion (splitChar '\n' output.data)).filterMap claimLineEntry?

/-- Code-side acceptance of one active-section line, read off the skip
chain of `parse_route_print` (`main.py` 1884–1910): any line containing a
marker substring, the header substring or two consecutive `'='` characters
is skipped, as are blank lines, lines with fewer than 5 fields and lines
whose first field fails the IPv4 test. -/
def codeLineEntry? (l : List Char) : Option RouteRaw :=
  if containsSub activeMarker l then none
  else if containsSub headerMarker l then none
  else if containsSub eqeqMarker l then none
  else if stripChars l = [] then none
  else
    match pySplitWs (stripChars l) with
    | p0 :: p1 :: p2 :: p3 :: p4 :: _ =>
      if validate_ipv4 ⟨p0⟩ || p0 = "0.0.0.0".data then
        some { destination := ⟨p0⟩, netmask := ⟨p1⟩, gateway := ⟨p2⟩,
               interface := ⟨p3⟩, metric := ⟨p4⟩ }
      else none
    | _ => none

/-- The lines the active-section loop examines once the flag is set: it
stops at the first line containing "Persistent Routes:" but not
"Active Routes:" (a line containing both re-triggers the first marker
check and is merely skipped). -/
def activeTake : List (List Char) → List (List Char)
  | [] => []
  | l :: rest =>
    if containsSub persistMarker l && !containsSub activeMarker l then []
    else l :: activeTake rest

/-- The lines `parse_route_print` examines in the active section: those
after the first marker line, cut off at the persistent marker; everything
before the first "Active Routes:" line is discarded, and a
"Persistent Routes:" line before it aborts the scan. -/
def codeRegion : List (List Char) → List (List Char)
  | [] => []
  | l :: rest =>
    if containsSub activeMarker l then activeTake rest
    else if containsSub persistMarker l then []
    else codeRegion rest

theorem parseActiveLoop_true_eq : ∀ lines,
    parseActiveLoop true lines = (activeTake lines).filterMap codeLineEntry? := by
  intro lines
  induction lines with
  | nil => rfl
  | cons l rest ih =>
    by_cases ha : containsSub activeMarker l = true
    · simp [parseActiveLoop, activeTake, codeLineEntry?, ha, ih]
    · by_cases hp : containsSub persistMarker l = true
      · simp [parseActiveLoop, activeTake, codeLineEntry?, ha, hp]
      · by_cases hh : containsSub headerMarker l = true
        · simp [parseActiveLoop, activeTake, codeLineEntry?, ha, hp, hh, ih]
        · by_cases he : containsSub eqeqMarker l = true
          · simp [parseActiveLoop, activeTake, codeLineEntry?, ha, hp, hh, he, ih]
          · by_cases hb : stripChars l = []
            · simp [parseActiveLoop, activeTake, codeLineEntry?, ha, hp, hh, he,
                hb, ih]
            · rcases hw : pySplitWs (stripChars l) with
                _ | ⟨p0, _ | ⟨p1, _ | ⟨p2, _ | ⟨p3, _ | ⟨p4, ps⟩⟩⟩⟩⟩
              all_goals
                try (simp [parseActiveLoop, activeTake, codeLineEntry?, ha, hp,
                  hh, he, hb, hw, ih]; done)
              all_goals
                by_cases hv : validate_ipv4 ⟨p0⟩ = true ∨ p0 = "0.0.0.0".data <;>
                  simp [parseActiveLoop, activeTake, codeLineEntry?, ha, hp, hh,
                    he, hb, hw, hv, ih]

theorem parseActiveLoop_false_eq : ∀ lines,
    parseActiveLoop false lines = (codeRegion lines).filterMap codeLineEntry? := by
  intro lines
  induction lines with
  | nil => rfl
  | cons l rest ih =>
    by_cases ha : containsSub activeMarker l = true
    · simp [parseActiveLoop, codeRegion, ha, parseActiveLoop_true_eq rest]
    · by_cases hp : containsSub persistMarker l = true
      · simp [parseActiveLoop, codeRegion, ha, hp]
      · simp [parseActiveLoop, codeRegion, ha, hp, ih]

/-- Counterexample to C5: the line
`"1.2.3.4 255.255.255.0 10.0.0.1 == 5"` lies strictly between the markers,
is not the column-header line, does not consist only of `'='` characters,
is not blank, splits into 5 fields and its first field is a valid IPv4
address, so the claim requires one RouteEntry for it — but the code skips
every line merely containing the substring `"=="`, so it parses to no
entry. -/
theorem c5_counterexample_eqeq_data_line :
    parse_route_print
      "Active Routes:\n1.2.3.4 255.255.255.0 10.0.0.1 == 5\nPersistent Routes:" = [] ∧
    specClaimParse
      "Active Routes:\n1.2.3.4 255.255.255.0 10.0.0.1 == 5\nPersistent Routes:" =
      [{ destination := "1.2.3.4", netmask := "255.255.255.0",
         gateway := "10.0.0.1", interface := "==", metric := "5" }] ∧
    parse_route_print
      "Active Routes:\n1.2.3.4 255.255.255.0 10.0.0.1 == 5\nPersistent Routes:" ≠
    specClaimParse
      "Active Routes:\n1.2.3.4 255.255.255.0 10.0.0.1 == 5\nPersistent Routes:" := by
  decide

/-- C5 as amended: for every input text the parser scans lines in order.
Lines before the first line containing "Active Routes:" are discarded,
except that a line containing "Persistent Routes:" (and not
"Active Routes:") seen before that marker aborts the scan with no entries.
The active section then consists of the following lines up to (excluding)
the first line containing "Persistent Routes:" but not "Active Routes:" —
a line containing both markers only re-triggers the active-marker check
and is skipped, not a section end.  Within that section the parser
returns, in input order, exactly one RouteEntry for each line that does
not contain the substrings "Active Routes:", "Network Destination" or "=="
(the separator check matches any line containing two consecutive `'='`
characters, not only pure separator lines), is not blank after stripping,
splits into at least 5 whitespace-separated fields, and whose first field
validates as IPv4 or equals "0.0.0.0"; fields map positionally to
destination, netmask, gateway, interfaceLabel, metric; every other line is
skipped, and the parser (a total function) never throws.  `codeRegion` and
`activeTake` are exactly these two scanning phases and `codeLineEntry?` is
exactly this per-line filter, so the equation below states the above. -/
theorem c5_parser_filters_region_lines (output : String) :
    parse_route_print output =
      (codeRegion (splitChar '\n' output.data)).filterMap codeLineEntry? :=
  parseActiveLoop_false_eq (splitChar '\n' output.data)

/-- Witness for C5 (amended) on a concrete two-row table. -/
theorem c5_parser_filters_region_lines_witness :
    parse_route_print
      "Active Routes:\nNetwork Destination Netmask Gateway Interface Metric\n 0.0.0.0 0.0.0.0 192.168.1.1 Ethernet0 25\nPersistent Routes:\n None" =
      (codeRegion (splitChar '\n'
        ("Active Routes:\nNetwork Destination Netmask Gateway Interface Metric\n 0.0.0.0 0.0.0.0 192.168.1.1 Ethernet0 25\nPersistent Routes:\n None" : String).data)).filterMap
        codeLineEntry? :=
  c5_parser_filters_region_lines
    "Active Routes:\nNetwork Destination Netmask Gateway Interface Metric\n 0.0.0.0 0.0.0.0 192.168.1.1 Ethernet0 25\nPersistent Routes:\n None"
